import Mathlib

/-!
Verification of the Forma front end (`skill/tools/forma_parser.py` and
`skill/tools/validate.py`) against its natural-language specification.

The Python code is shallowly embedded: dynamic (JSON-like) IR values become
the inductive `Value`, Python ordered dicts become association lists whose
key order is insertion order, and every validator routine becomes a pure
Lean function returning the list of diagnostics it appends (validation is
append-only, so the chronological diagnostic list determines the `errors` /
`warnings` pair by filtering on level).  Recursive routines that Python
bounds by the finite document (type-expression resolution, mixin-cycle
detection, mixin field resolution, the recursive-descent parser) take an
explicit fuel argument; every call site supplies fuel large enough that the
fallback branch is unreachable for the inputs considered.
-/

namespace Forma

/-- Literal `{` character (appears in Forma association types). -/
def lbraceChar : Char := Char.ofNat 123

/-- Literal `}` character. -/
def rbraceChar : Char := Char.ofNat 125

/-- A single error or warning, as in `validate.py`'s `Diagnostic` class. -/
structure Diagnostic where
  code : String
  level : String
  message : String
  location : String
deriving DecidableEq, Repr

/-- Dynamic IR values: the subset of Python values that appear in parsed or
hand-built Forma IR documents (strings, booleans, integers, `None`, lists,
ordered dicts).  Dicts are association lists in insertion order. -/
inductive Value where
  | vstr (s : String)
  | vbool (b : Bool)
  | vint (n : Int)
  | vnone
  | vlist (xs : List Value)
  | vdict (xs : List (String × Value))
deriving Repr

namespace Value

/-- `type(v).__name__` for the embedded values. -/
def typeName : Value → String
  | vstr _ => "str"
  | vbool _ => "bool"
  | vint _ => "int"
  | vnone => "NoneType"
  | vlist _ => "list"
  | vdict _ => "dict"

mutual

/-- Python `repr` of a value (adequate for the simple scalars and
containers appearing in Forma IRs; strings are wrapped in single quotes). -/
def pyRepr : Value → String
  | vstr s => "\x27" ++ s ++ "\x27"
  | vbool b => if b then "True" else "False"
  | vint n => toString n
  | vnone => "None"
  | vlist xs => "[" ++ pyReprList xs ++ "]"
  | vdict xs => "\x7b" ++ pyReprDict xs ++ "\x7d"

/-- `repr` of the elements of a list, comma separated. -/
def pyReprList : List Value → String
  | [] => ""
  | [x] => pyRepr x
  | x :: rest => pyRepr x ++ ", " ++ pyReprList rest

/-- `repr` of the entries of a dict, comma separated. -/
def pyReprDict : List (String × Value) → String
  | [] => ""
  | [(k, v)] => "\x27" ++ k ++ "\x27: " ++ pyRepr v
  | (k, v) :: rest => "\x27" ++ k ++ "\x27: " ++ pyRepr v ++ ", " ++ pyReprDict rest

end

/-- Python `str()` of a value (equals the value itself for strings,
`repr` for containers, `True`/`False`/`None` spellings for the rest). -/
def pyStr : Value → String
  | vstr s => s
  | v => v.pyRepr

def isStr : Value → Bool
  | vstr _ => true
  | _ => false

def isDict : Value → Bool
  | vdict _ => true
  | _ => false

def isList : Value → Bool
  | vlist _ => true
  | _ => false

def isNone : Value → Bool
  | vnone => true
  | _ => false

end Value

/-- Keys of an association list (in order). -/
def dictKeys (m : List (String × Value)) : List String := m.map (·.1)

/-- Python `d.get(k)`: `None` both when the key is absent and when the
stored value is `None`. -/
def pyGet (m : List (String × Value)) (k : String) : Value :=
  match m.find? (fun p => p.1 = k) with
  | some p => p.2
  | none => Value.vnone

/-- Python `k in d`. -/
def hasKey (m : List (String × Value)) (k : String) : Bool :=
  m.any (fun p => p.1 = k)

/-- Python `d[k] = v` on an ordered dict: replaces in place if the key is
present (keeping its position), appends otherwise. -/
def dictSet (m : List (String × String)) (k v : String) : List (String × String) :=
  if m.any (fun p => p.1 = k) then
    m.map (fun p => if p.1 = k then (p.1, v) else p)
  else m ++ [(k, v)]

/-- Python `d.update(d2)` on ordered dicts. -/
def dictUpdate (m m2 : List (String × String)) : List (String × String) :=
  m2.foldl (fun acc p => dictSet acc p.1 p.2) m

/-- `dictSet` for `Value`-valued dicts. -/
def dictSetV (m : List (String × Value)) (k : String) (v : Value) : List (String × Value) :=
  if m.any (fun p => p.1 = k) then
    m.map (fun p => if p.1 = k then (p.1, v) else p)
  else m ++ [(k, v)]

/-- Insert into an insertion-ordered set (Python `set.add`). -/
def setAdd (s : List String) (x : String) : List String :=
  if x ∈ s then s else s ++ [x]

/-- Python `str.strip()`: drop whitespace from both ends. -/
def pyStrip (s : String) : String :=
  ((s.toList.dropWhile Char.isWhitespace).reverse.dropWhile Char.isWhitespace).reverse.asString

/-- Python `str.rstrip("?")`: drop every trailing `?`. -/
def rstripQ (s : String) : String :=
  ((s.toList.reverse.dropWhile (· = '?')).reverse).asString

/-- Does the string start with the given character? -/
def startsWithChar (s : String) (c : Char) : Bool :=
  match s.toList with
  | [] => false
  | a :: _ => a = c

/-- Does the string end with the given character? -/
def endsWithChar (s : String) (c : Char) : Bool :=
  match s.toList.getLast? with
  | some a => a = c
  | none => false

/-- Drop the first and last character (`s[1:-1]` on a bracketed string). -/
def dropEnds (s : String) : String :=
  (s.toList.drop 1).dropLast.asString

/-- A `\w` word character (ASCII form, as used by `validate.py`'s
`_WRAPPER_RE = ^(\w+)<(.+)>$`). -/
def isWordChar (c : Char) : Bool := c.isAlphanum || c = '_'

/-- Match of `_WRAPPER_RE` (`^(\w+)<(.+)>$`): returns the wrapper name and
the raw argument string between the first `<` and the final `>`. -/
def wrapperMatch (s : String) : Option (String × String) :=
  let cs := s.toList
  let w := cs.takeWhile isWordChar
  let rest := cs.dropWhile isWordChar
  match rest with
  | c :: rest2 =>
    if c = '<' ∧ w ≠ [] ∧ rest2.getLast? = some '>' ∧ rest2.dropLast ≠ [] then
      some (w.asString, rest2.dropLast.asString)
    else none
  | [] => none

/-- `_split_type_args`: split on commas at bracket/brace/angle depth zero,
stripping each piece; a trailing nonempty buffer is appended (stripped). -/
def splitTypeArgs (s : String) : List String :=
  go s.toList 0 [] []
where
  go : List Char → Int → List Char → List String → List String
  | [], _, current, args =>
    if current ≠ [] then args ++ [pyStrip current.asString] else args
  | ch :: rest, depth, current, args =>
    if ch = '[' ∨ ch = lbraceChar ∨ ch = '<' then
      go rest (depth + 1) (current ++ [ch]) args
    else if ch = ']' ∨ ch = rbraceChar ∨ ch = '>' then
      go rest (depth - 1) (current ++ [ch]) args
    else if ch = ',' ∧ depth = 0 then
      go rest depth [] (args ++ [pyStrip current.asString])
    else
      go rest depth (current ++ [ch]) args

/-- `_substitute_type_params`: rewrite type-parameter occurrences inside a
type-expression string, preserving a trailing `?`. -/
def substituteTypeParams (fuel : Nat) (typeStr : String) (subst : List (String × String)) : String :=
  match fuel with
  | 0 => typeStr
  | fuel + 1 =>
    let nullable := endsWithChar typeStr '?'
    let base := if nullable then rstripQ typeStr else typeStr
    match subst.find? (fun p => p.1 = base) with
    | some p => if nullable then p.2 ++ "?" else p.2
    | none =>
      if startsWithChar base '[' ∧ endsWithChar base ']' then
        let args := splitTypeArgs (dropEnds base)
        let resolved := String.intercalate ", " (args.map (fun a => substituteTypeParams fuel (pyStrip a) subst))
        let result := "[" ++ resolved ++ "]"
        if nullable then result ++ "?" else result
      else if startsWithChar base lbraceChar ∧ endsWithChar base rbraceChar then
        let args := splitTypeArgs (dropEnds base)
        let resolved := String.intercalate ", " (args.map (fun a => substituteTypeParams fuel (pyStrip a) subst))
        let result := "\x7b" ++ resolved ++ "\x7d"
        if nullable then result ++ "?" else result
      else
        match wrapperMatch base with
        | some (wname, argsStr) =>
          let args := splitTypeArgs argsStr
          let resolved := String.intercalate ", " (args.map (fun a => substituteTypeParams fuel (pyStrip a) subst))
          let result := wname ++ "<" ++ resolved ++ ">"
          if nullable then result ++ "?" else result
        | none => typeStr

/-- `_parse_mixin_ref` (validator side): split `Name<Arg, …>` into the name
and the stripped argument list; plain names get an empty list. -/
def parseMixinRef (refStr : String) : String × List String :=
  match wrapperMatch refStr with
  | some (name, argsStr) => (name, (splitTypeArgs argsStr).map pyStrip)
  | none => (refStr, [])

/-- The validator's registry: the name sets and per-mixin side tables built
by `ModelValidator._build_type_registry`.  Python's name sets are kept as
insertion-ordered duplicate-free lists (only membership is used on them,
except in the duplicate check, where list order stands in for Python's
unspecified set iteration order). -/
structure Registry where
  shapes : List String := []
  choices : List String := []
  mixins : List String := []
  mixinFields : List (String × List (String × Value)) := []
  mixinTypeParams : List (String × List Value) := []
  mixinUse : List (String × List Value) := []
deriving Repr

/-- Look up a per-mixin side table, with a default (Python `dict.get(k, d)`). -/
def tblGet {α : Type} (tbl : List (String × α)) (k : String) (d : α) : α :=
  match tbl.find? (fun p => p.1 = k) with
  | some p => p.2
  | none => d

/-- Is `k` a key of the side table (Python `k in dict`)? -/
def tblHas {α : Type} (tbl : List (String × α)) (k : String) : Bool :=
  tbl.any (fun p => p.1 = k)

/-- A Forma IR document: the validator's `self.data` dict. -/
def Doc := List (String × Value)

/-- `_section_keys`: keys of a top-level section if it is a dict. -/
def sectionKeys (data : Doc) (sect : String) : List String :=
  match pyGet data sect with
  | Value.vdict xs => dictKeys xs
  | _ => []

/-- `_build_type_registry`. -/
def buildTypeRegistry (data : Doc) : Registry :=
  let reg : Registry :=
    { shapes := (sectionKeys data "shapes").foldl setAdd []
      choices := (sectionKeys data "choices").foldl setAdd []
      mixins := (sectionKeys data "mixins").foldl setAdd [] }
  (sectionKeys data "mixins").foldl (fun reg name =>
    match pyGet data "mixins" with
    | Value.vdict sections =>
      match pyGet sections name with
      | Value.vdict sect =>
        match pyGet sect "fields" with
        | Value.vdict fields =>
          let reg := { reg with mixinFields := reg.mixinFields ++ [(name, fields)] }
          let reg :=
            match pyGet sect "type_params" with
            | Value.vlist ps => { reg with mixinTypeParams := reg.mixinTypeParams ++ [(name, ps)] }
            | _ => reg
          match pyGet sect "use" with
          | Value.vlist us => { reg with mixinUse := reg.mixinUse ++ [(name, us)] }
          | _ => reg
        | _ => reg
      | _ => reg
    | _ => reg) reg

/-- Helper: build an error diagnostic. -/
def errD (code message location : String) : Diagnostic :=
  ⟨code, "error", message, location⟩

/-- Helper: build a warning diagnostic. -/
def warnD (code message location : String) : Diagnostic :=
  ⟨code, "warning", message, location⟩

/-- `ModelValidator._resolve_type`: validate a type-expression string,
returning the diagnostics it appends (in order) and its boolean result.
The fuel bounds the recursion depth; any fuel exceeding the nesting depth
of the expression reproduces the Python behaviour. -/
def resolveType (fuel : Nat) (reg : Registry) (raw : String) (location : String) :
    List Diagnostic × Bool :=
  match fuel with
  | 0 => ([], false)
  | fuel + 1 =>
    let typeStr := rstripQ raw
    if typeStr = "" then
      ([errD "E041" "empty type string" location], false)
    else if startsWithChar typeStr '[' ∧ endsWithChar typeStr ']' then
      let args := splitTypeArgs (dropEnds typeStr)
      (args.flatMap (fun arg =>
        let arg := pyStrip arg
        (if endsWithChar arg '?' then
          [warnD "W019" ("nullable element type \"" ++ arg ++ "\" inside collection — nullable collection elements are discouraged") location]
        else []) ++ (resolveType fuel reg arg location).1), true)
    else if startsWithChar typeStr lbraceChar ∧ endsWithChar typeStr rbraceChar then
      let args := splitTypeArgs (dropEnds typeStr)
      if args.length ≠ 2 then
        ([errD "E041" ("association \x7bK, V\x7d requires exactly 2 type arguments, got " ++ toString args.length) location], false)
      else
        (args.flatMap (fun arg => (resolveType fuel reg (pyStrip arg) location).1), true)
    else
      match wrapperMatch typeStr with
      | some (wrapperName, argsStr) =>
        let args := splitTypeArgs argsStr
        ([warnD "W015" ("named wrapper \"" ++ wrapperName ++ "\"") location] ++
          args.flatMap (fun arg =>
            let arg := pyStrip arg
            (if endsWithChar arg '?' then
              [warnD "W019" ("nullable element type \"" ++ arg ++ "\" inside wrapper \"" ++ wrapperName ++ "\" — nullable collection elements are discouraged") location]
            else []) ++ (resolveType fuel reg arg location).1), true)
      | none =>
        if typeStr ∈ reg.shapes ∨ typeStr ∈ reg.choices then
          ([], true)
        else if typeStr ∈ reg.mixins then
          ([errD "E042" ("mixin \"" ++ typeStr ++ "\" cannot be used as a field type (use a shape instead)") location], false)
        else
          ([], true)

/-- `_resolve_type` applied to an arbitrary IR value: the `isinstance(raw,
str)` guard from the source (non-strings are **E041**). -/
def resolveTypeV (fuel : Nat) (reg : Registry) (raw : Value) (location : String) :
    List Diagnostic × Bool :=
  match raw with
  | Value.vstr s => resolveType fuel reg s location
  | v => ([errD "E041" ("field type is not a string: " ++ v.pyRepr) location], false)

/-- `_type_uses_only_params`: is the type expression built purely from the
mixin's own type-parameter names (such expressions skip resolution)? -/
def typeUsesOnlyParams (fuel : Nat) (typeStr : String) (params : List String) : Bool :=
  match fuel with
  | 0 => false
  | fuel + 1 =>
    let stripped := rstripQ typeStr
    if stripped = "" then false
    else if stripped ∈ params then true
    else if startsWithChar stripped '[' ∧ endsWithChar stripped ']' then
      (splitTypeArgs (dropEnds stripped)).all (fun a => typeUsesOnlyParams fuel (pyStrip a) params)
    else if startsWithChar stripped lbraceChar ∧ endsWithChar stripped rbraceChar then
      (splitTypeArgs (dropEnds stripped)).all (fun a => typeUsesOnlyParams fuel (pyStrip a) params)
    else
      match wrapperMatch stripped with
      | some (_, argsStr) =>
        (splitTypeArgs argsStr).all (fun a => typeUsesOnlyParams fuel (pyStrip a) params)
      | none => false

mutual

/-- `_detect_mixin_cycle`: depth-first traversal of the mixin `use` graph
carrying the currently-visiting set and the path; reports **E091** with the
full cycle path on revisiting a name.  Returns the appended diagnostics and
the boolean result.  Python always terminates (the visiting set grows along
every recursing branch, bounded by the declared mixins); any fuel exceeding
the number of traversal steps reproduces that behaviour. -/
def detectMixinCycle (fuel : Nat) (reg : Registry) (name : String)
    (visiting : List String) (path : List String) : List Diagnostic × Bool :=
  match fuel with
  | 0 => ([], false)
  | fuel + 1 =>
    if name ∈ visiting then
      let cyclePath := String.intercalate " -> " (path ++ [name])
      ([errD "E091" ("circular mixin composition: " ++ cyclePath) ("mixins." ++ name)], true)
    else if ¬ tblHas reg.mixinUse name then
      ([], false)
    else
      detectCycleRefs fuel reg (tblGet reg.mixinUse name [])
        (setAdd visiting name) (path ++ [name])

/-- The `for ref_str in self.mixin_use[name]` loop of
`_detect_mixin_cycle`: returns `True` (with the appended diagnostics) as
soon as one branch finds a cycle. -/
def detectCycleRefs (fuel : Nat) (reg : Registry) (refs : List Value)
    (visiting : List String) (path : List String) : List Diagnostic × Bool :=
  match fuel with
  | 0 => ([], false)
  | fuel + 1 =>
    match refs with
    | [] => ([], false)
    | ref :: rest =>
      let refName := (parseMixinRef (Value.pyStr ref)).1
      let (ds, found) := detectMixinCycle fuel reg refName visiting path
      if found then (ds, true)
      else
        let (ds2, found2) := detectCycleRefs fuel reg rest visiting path
        (ds ++ ds2, found2)

end

/-- `_resolve_mixin_fields`: expand a mixin's effective field map —
composed mixins first, in declaration order, later entries overriding
earlier ones; then the mixin's own fields on top, with its type parameters
substituted positionally by the supplied type arguments. -/
def resolveMixinFields (fuel : Nat) (reg : Registry) (mixinName : String)
    (typeArgs : List String) (visited : List String) : List (String × Value) :=
  match fuel with
  | 0 => []
  | fuel + 1 =>
    if mixinName ∈ visited then []
    else
      let visited := setAdd visited mixinName
      let fields := tblGet reg.mixinFields mixinName []
      let params := tblGet reg.mixinTypeParams mixinName []
      let allFields : List (String × Value) :=
        (tblGet reg.mixinUse mixinName []).foldl (fun allFields ref =>
          let (refName, refArgs) := parseMixinRef (Value.pyStr ref)
          if tblHas reg.mixinFields refName then
            (resolveMixinFields fuel reg refName refArgs visited).foldl
              (fun acc p => dictSetV acc p.1 p.2) allFields
          else allFields) []
      let subst : List (String × String) :=
        (params.enum.foldl (fun subst p =>
          match p with
          | (i, Value.vstr s) =>
            match typeArgs[i]? with
            | some arg => dictSet subst s arg
            | none => subst
          | _ => subst) [])
      fields.foldl (fun allFields p =>
        let fval :=
          if subst ≠ [] then
            match p.2 with
            | Value.vstr s => Value.vstr (substituteTypeParams (s.length + 1) s subst)
            | v => v
          else p.2
        dictSetV allFields p.1 fval) allFields

/-- `_validate_meta`. -/
def validateMeta (data : Doc) : List Diagnostic :=
  match pyGet data "meta" with
  | Value.vnone => [errD "E001" "\"meta\" section is missing" "meta"]
  | Value.vdict meta =>
    (if ¬ (hasKey meta "name" ∧ (pyGet meta "name").isStr) then
      [errD "E002" "\"meta.name\" is missing or not a string" "meta.name"]
    else []) ++
    (if ¬ (hasKey meta "version" ∧ (pyGet meta "version").isStr) then
      [errD "E003" "\"meta.version\" is missing or not a string" "meta.version"]
    else []) ++
    (if ¬ hasKey meta "description" then
      [warnD "W013" "\"meta.description\" is missing" "meta"]
    else []) ++
    (match pyGet meta "namespace" with
    | Value.vnone => []
    | Value.vstr s => if s = "" then [errD "E004" "\"meta.namespace\" must be a non-empty string" "meta.namespace"] else []
    | _ => [errD "E004" "\"meta.namespace\" must be a non-empty string" "meta.namespace"])
  | _ => [errD "E011" "\"meta\" must be a mapping" "meta"]

/-- `_validate_top_level_keys`. -/
def validateTopLevelKeys (data : Doc) : List Diagnostic :=
  data.flatMap (fun p =>
    if p.1 ∈ ["meta", "shapes", "choices", "mixins"] then []
    else [errD "E010" ("unknown top-level key \"" ++ p.1 ++ "\"") p.1])

/-- `_check_duplicate_type_names` (**E100**).  Python iterates its name
*sets* here; insertion order stands in for the unspecified set order. -/
def checkDuplicateTypeNames (reg : Registry) : List Diagnostic :=
  let step := fun (st : List (String × String) × List Diagnostic) (sectName : String) (name : String) =>
    match st.1.find? (fun p => p.1 = name) with
    | some p =>
      (st.1, st.2 ++ [errD "E100"
        ("\"" ++ name ++ "\" is defined in both \"" ++ p.2 ++ "\" and \"" ++ sectName ++ "\"")
        (sectName ++ "." ++ name)])
    | none => (st.1 ++ [(name, sectName)], st.2)
  let st := reg.shapes.foldl (fun st n => step st "shapes" n) ([], [])
  let st := reg.choices.foldl (fun st n => step st "choices" n) st
  let st := reg.mixins.foldl (fun st n => step st "mixins" n) st
  st.2

/-- Fuel that certainly exceeds the nesting depth of a type-expression
string: its length plus one. -/
def typeFuel (s : String) : Nat := s.length + 1

/-- Fuel sufficient for the mixin-cycle traversal on the documents
considered here: the visiting set bounds the depth by the number of mixins
with a `use` list, and each level steps through one `use` list. -/
def cycleFuel (reg : Registry) : Nat :=
  (reg.mixinUse.foldl (fun a p => a + p.2.length) 0 + reg.mixinUse.length + 2) *
    (reg.mixinUse.length + 2)

/-- Fuel for `resolveMixinFields`: the visited set grows at each level,
bounded by the registered mixins. -/
def mixinFuel (reg : Registry) : Nat := reg.mixinFields.length + 2

/-- `_validate_mixins`: per-mixin body (after the `isinstance(body, dict)`
check), emitting diagnostics in source order. -/
def validateMixinBody (reg : Registry) (name : String) (body : List (String × Value)) :
    List Diagnostic :=
  let loc := "mixins." ++ name
  let keyDiags := body.flatMap (fun p =>
    if p.1 ∈ ["type_params", "use", "fields"] then []
    else [errD "E060" ("unknown key \"" ++ p.1 ++ "\" in mixin \"" ++ name ++ "\"") (loc ++ "." ++ p.1)])
  match pyGet body "fields" with
  | Value.vdict fields =>
    if fields.length = 0 then
      keyDiags ++ [errD "E060" ("mixin \"" ++ name ++ "\" has no fields") loc]
    else
      let paramDiags : List Diagnostic × List String :=
        match pyGet body "type_params" with
        | Value.vnone => ([], [])
        | Value.vlist ps =>
          ps.foldl (fun st p =>
            match p with
            | Value.vstr s => (st.1, setAdd st.2 s)
            | v => (st.1 ++ [errD "E065" ("type parameter must be a string, got " ++ v.typeName) (loc ++ ".type_params")], st.2)) ([], [])
        | _ => ([errD "E065" ("\"type_params\" in mixin \"" ++ name ++ "\" must be a list") (loc ++ ".type_params")], [])
      let useDiags : List Diagnostic :=
        match pyGet body "use" with
        | Value.vnone => []
        | Value.vlist us =>
          us.flatMap (fun ref =>
            let mixinName := (parseMixinRef (Value.pyStr ref)).1
            if mixinName ∈ reg.mixins then []
            else [errD "E092" ("mixin \"" ++ name ++ "\" references unknown mixin \"" ++ mixinName ++ "\"") (loc ++ ".use")])
        | _ => [errD "E092" ("\"use\" in mixin \"" ++ name ++ "\" must be a list") (loc ++ ".use")]
      let cycleDiags := (detectMixinCycle (cycleFuel reg) reg name [] []).1
      let fieldDiags := fields.flatMap (fun p =>
        let floc := loc ++ "." ++ p.1
        match p.2 with
        | Value.vstr s =>
          if typeUsesOnlyParams (typeFuel s) s paramDiags.2 then []
          else (resolveType (typeFuel s) reg s floc).1
        | _ => [])
      keyDiags ++ paramDiags.1 ++ useDiags ++ cycleDiags ++ fieldDiags
  | _ => keyDiags ++ [errD "E060" ("mixin \"" ++ name ++ "\" must have fields") loc]

/-- `_validate_mixins`. -/
def validateMixins (reg : Registry) (data : Doc) : List Diagnostic :=
  match pyGet data "mixins" with
  | Value.vnone => []
  | Value.vdict sect =>
    if sect.length = 0 then [warnD "W017" "\"mixins\" section is empty" "mixins"]
    else
      sect.flatMap (fun p =>
        match p.2 with
        | Value.vdict body => validateMixinBody reg p.1 body
        | v => [errD "E060" ("mixin \"" ++ p.1 ++ "\" must have fields (got " ++ v.typeName ++ ")") ("mixins." ++ p.1)])
  | _ => [errD "E011" "\"mixins\" must be a mapping" "mixins"]

/-- `_validate_choices`: per-choice body (after the mapping check). -/
def validateChoiceBody (reg : Registry) (name : String) (body : List (String × Value)) :
    List Diagnostic :=
  let loc := "choices." ++ name
  let common := pyGet body "common"
  let commonTypeDiags :=
    match common with
    | Value.vnone => []
    | Value.vdict _ => []
    | _ => [errD "E053" ("\"common\" block in choice \"" ++ name ++ "\" must be a mapping") (loc ++ ".common")]
  let variants := body.filter (fun p => p.1 ≠ "common")
  let countDiags :=
    if variants.length < 2 then
      [errD "E050" ("choice \"" ++ name ++ "\" must have at least 2 variants (has " ++ toString variants.length ++ ")") loc]
    else []
  let commonFieldDiags :=
    match common with
    | Value.vdict cs =>
      cs.flatMap (fun p =>
        match p.2 with
        | Value.vstr s => (resolveType (typeFuel s) reg s (loc ++ ".common." ++ p.1)).1
        | _ => [])
    | _ => []
  let variantDiags :=
    variants.flatMap (fun v =>
      let vloc := loc ++ "." ++ v.1
      match v.2 with
      | Value.vnone => []
      | Value.vdict vfs =>
        vfs.flatMap (fun p =>
          match p.2 with
          | Value.vstr s => (resolveType (typeFuel s) reg s (vloc ++ "." ++ p.1)).1
          | _ => [])
      | _ => [errD "E051" ("variant \"" ++ v.1 ++ "\" in choice \"" ++ name ++ "\" must be a mapping or empty") vloc])
  commonTypeDiags ++ countDiags ++ commonFieldDiags ++ variantDiags

/-- `_validate_choices`. -/
def validateChoices (reg : Registry) (data : Doc) : List Diagnostic :=
  match pyGet data "choices" with
  | Value.vnone => []
  | Value.vdict sect =>
    if sect.length = 0 then [warnD "W017" "\"choices\" section is empty" "choices"]
    else
      sect.flatMap (fun p =>
        match p.2 with
        | Value.vdict body => validateChoiceBody reg p.1 body
        | _ => [errD "E011" ("choice \"" ++ p.1 ++ "\" must be a mapping") ("choices." ++ p.1)])
  | _ => [errD "E011" "\"choices\" must be a mapping" "choices"]

/-- The four-case arity check a shape's `use` entry undergoes against the
referenced mixin's registered type-parameter count
(`validate.py`, `_validate_shapes`, stage 1). -/
def arityCheckErrors (mixinName loc : String) (expected supplied : Nat) : List Diagnostic :=
  if supplied ≠ expected then
    if expected = 0 ∧ supplied = 0 then []
    else if expected > 0 ∧ supplied = 0 then
      [errD "E086" ("mixin \"" ++ mixinName ++ "\" requires " ++ toString expected ++ " type argument(s), got 0") loc]
    else if expected = 0 ∧ supplied > 0 then
      [errD "E086" ("mixin \"" ++ mixinName ++ "\" is not generic but got " ++ toString supplied ++ " type argument(s)") loc]
    else
      [errD "E086" ("mixin \"" ++ mixinName ++ "\" requires " ++ toString expected ++ " type argument(s), got " ++ toString supplied) loc]
  else []

/-- One entry of a shape's `use` list: reference/arity/composition
processing, threading the map from contributed field name to source mixin. -/
def validateShapeUseEntry (reg : Registry) (shapeName loc : String)
    (st : List Diagnostic × List (String × String)) (ref : Value) :
    List Diagnostic × List (String × String) :=
  let mixinStr := Value.pyStr ref
  let (mixinName, typeArgs) := parseMixinRef mixinStr
  if mixinName ∉ reg.mixins then
    (st.1 ++ [errD "E084" ("unknown mixin \"" ++ mixinName ++ "\" in shape \"" ++ shapeName ++ "\"") (loc ++ ".use")], st.2)
  else
    let expected := tblGet reg.mixinTypeParams mixinName []
    let arityDiags := arityCheckErrors mixinName (loc ++ ".use") expected.length typeArgs.length
    let argDiags := typeArgs.flatMap (fun arg => (resolveType (typeFuel arg) reg arg (loc ++ ".use")).1)
    if tblHas reg.mixinFields mixinName then
      let resolved := resolveMixinFields (mixinFuel reg) reg mixinName typeArgs []
      let st2 := resolved.foldl (fun (st : List Diagnostic × List (String × String)) p =>
        match st.2.find? (fun q => q.1 = p.1) with
        | some q =>
          (st.1 ++ [errD "E090" ("field \"" ++ p.1 ++ "\" is defined in both mixin \"" ++ q.2 ++ "\" and mixin \"" ++ mixinName ++ "\"") (loc ++ ".use")], st.2)
        | none =>
          (st.1 ++ (resolveTypeV (typeFuel (Value.pyStr p.2)) reg p.2 (loc ++ ".use." ++ mixinName ++ "." ++ p.1)).1,
           st.2 ++ [(p.1, mixinName)])) (st.1 ++ arityDiags ++ argDiags, st.2)
      st2
    else
      (st.1 ++ arityDiags ++ argDiags, st.2)

/-- `_validate_shapes`: per-shape body (after the mapping check). -/
def validateShapeBody (reg : Registry) (name : String) (body : List (String × Value)) :
    List Diagnostic :=
  let loc := "shapes." ++ name
  let keyDiags := body.flatMap (fun p =>
    if p.1 ∈ ["use", "fields"] then []
    else [errD "E085" ("unknown key \"" ++ p.1 ++ "\" in shape \"" ++ name ++ "\"") (loc ++ "." ++ p.1)])
  let useState : List Diagnostic × List (String × String) :=
    match pyGet body "use" with
    | Value.vnone => ([], [])
    | Value.vlist us => us.foldl (validateShapeUseEntry reg name loc) ([], [])
    | _ => ([errD "E083" ("\"use\" in shape \"" ++ name ++ "\" must be a list") (loc ++ ".use")], [])
  let rmf := useState.2
  let fieldDiags :=
    match pyGet body "fields" with
    | Value.vnone => [errD "E070" ("shape \"" ++ name ++ "\" is missing \"fields\" section") loc]
    | Value.vdict fields =>
      (if fields.length = 0 then
        [errD "E070" ("shape \"" ++ name ++ "\" has no fields") (loc ++ ".fields")]
      else []) ++
      fields.flatMap (fun p =>
        let floc := loc ++ ".fields." ++ p.1
        (match rmf.find? (fun q => q.1 = p.1) with
        | some q => [warnD "W012" ("field \"" ++ p.1 ++ "\" in shape \"" ++ name ++ "\" shadows mixin field from \"" ++ q.2 ++ "\"") floc]
        | none => []) ++
        (match p.2 with
        | Value.vstr s => (resolveType (typeFuel s) reg s floc).1
        | v => [errD "E075" ("field type must be a string, got " ++ v.typeName ++ " (" ++ v.pyRepr ++ ")") floc]))
    | _ => [errD "E011" ("\"fields\" in shape \"" ++ name ++ "\" must be a mapping") (loc ++ ".fields")]
  keyDiags ++ useState.1 ++ fieldDiags

/-- `_validate_shapes`. -/
def validateShapes (reg : Registry) (data : Doc) : List Diagnostic :=
  match pyGet data "shapes" with
  | Value.vnone => []
  | Value.vdict sect =>
    if sect.length = 0 then [warnD "W017" "\"shapes\" section is empty" "shapes"]
    else
      sect.flatMap (fun p =>
        match p.2 with
        | Value.vdict body => validateShapeBody reg p.1 body
        | _ => [errD "E011" ("shape \"" ++ p.1 ++ "\" must be a mapping") ("shapes." ++ p.1)])
  | _ => [errD "E011" "\"shapes\" must be a mapping" "shapes"]

/-- `ModelValidator.validate`: run all passes in order, returning the
chronological diagnostic list. -/
def validateAll (data : Doc) : List Diagnostic :=
  let reg := buildTypeRegistry data
  checkDuplicateTypeNames reg ++
  validateTopLevelKeys data ++
  validateMeta data ++
  validateMixins reg data ++
  validateChoices reg data ++
  validateShapes reg data

/-- The `(errors, warnings)` pair returned by `ModelValidator.validate`. -/
def validate (data : Doc) : List Diagnostic × List Diagnostic :=
  let ds := validateAll data
  (ds.filter (fun d => d.level = "error"), ds.filter (fun d => d.level = "warning"))

/-- Count the diagnostics carrying a given code. -/
def countCode (code : String) (ds : List Diagnostic) : Nat :=
  (ds.filter (fun d => d.code = code)).length

/-! ## The lexer and parser of `forma_parser.py` -/

/-- Python `repr` of a short plain string (single-quote wrapped; the
strings appearing in parser diagnostics contain no quotes to escape). -/
def pyReprStr (s : String) : String := "\x27" ++ s ++ "\x27"

/-- Token types (the `TT` class). -/
inductive TType where
  | eof | ident | strlit
  | lparen | rparen | lbracket | rbracket | lbrace | rbrace
  | langle | rangle | colon | comma | question
deriving DecidableEq, Repr

/-- The string constant each token type is represented by in the source
(`TT.EOF = "EOF"`, `TT.LPAREN = "("`, …); used in error messages. -/
def TType.pyName : TType → String
  | eof => "EOF"
  | ident => "IDENT"
  | strlit => "STRING"
  | lparen => "("
  | rparen => ")"
  | lbracket => "["
  | rbracket => "]"
  | lbrace => "\x7b"
  | rbrace => "\x7d"
  | langle => "<"
  | rangle => ">"
  | colon => ":"
  | comma => ","
  | question => "?"

/-- A lexed token. -/
structure Token where
  ttype : TType
  value : String
  line : Nat
  col : Nat
deriving DecidableEq, Repr

/-- A `LexError` (message, line, column). -/
structure LexErr where
  message : String
  line : Nat
  col : Nat
deriving DecidableEq, Repr

/-- A `ParseError` (message, line, column). -/
structure ParseErr where
  message : String
  line : Nat
  col : Nat
deriving DecidableEq, Repr

/-- Either failure mode of `parse_forma`. -/
inductive FormaErr where
  | lexErr (e : LexErr)
  | parseErr (e : ParseErr)
deriving DecidableEq, Repr

/-- Identifier continuation characters (letters, digits, `_`, `.`). -/
def identCont (c : Char) : Bool := c.isAlphanum || c = '_' || c = '.'

/-- The string-literal scanning loop of `_lex`: returns the decoded
content, the remaining characters after the closing quote, and the updated
column.  `startCol` is the opening quote's column. -/
def lexString (fuel : Nat) (cs : List Char) (line col startCol : Nat) (buf : List Char) :
    Except LexErr (String × List Char × Nat) :=
  match fuel with
  | 0 => .error ⟨"unterminated string literal", line, startCol⟩
  | fuel + 1 =>
    match cs with
    | [] => .error ⟨"unterminated string literal", line, startCol⟩
    | c :: rest =>
      if c = '"' then .ok (buf.asString, rest, col + 1)
      else if c = '\n' then .error ⟨"unterminated string literal", line, startCol⟩
      else if c = '\\' ∧ rest ≠ [] then
        match rest with
        | esc :: rest2 =>
          let decoded :=
            if esc = 'n' then '\n'
            else if esc = 't' then '\t'
            else esc
          lexString fuel rest2 line (col + 2) startCol (buf ++ [decoded])
        | [] => .error ⟨"unterminated string literal", line, startCol⟩
      else
        lexString fuel rest line (col + 1) startCol (buf ++ [c])

/-- The main loop of `_lex`. -/
def lexGo (fuel : Nat) (cs : List Char) (line col : Nat) (acc : List Token) :
    Except LexErr (List Token) :=
  match fuel with
  | 0 => .error ⟨"out of fuel", line, col⟩
  | fuel + 1 =>
    match cs with
    | [] => .ok (acc ++ [⟨.eof, "", line, col⟩])
    | ch :: rest =>
      if ch = '\n' then
        lexGo fuel rest (line + 1) 1 acc
      else if ch = ' ' ∨ ch = '\t' ∨ ch = '\r' then
        lexGo fuel rest line (col + 1) acc
      else if ch = '/' ∧ rest.head? = some '/' then
        lexGo fuel ((ch :: rest).dropWhile (· ≠ '\n')) line col acc
      else if ch = '"' then
        match lexString (rest.length + 1) rest line (col + 1) col [] with
        | .error e => .error e
        | .ok (content, rest2, col2) =>
          lexGo fuel rest2 line col2 (acc ++ [⟨.strlit, content, line, col⟩])
      else if ch = '(' then lexGo fuel rest line (col + 1) (acc ++ [⟨.lparen, "(", line, col⟩])
      else if ch = ')' then lexGo fuel rest line (col + 1) (acc ++ [⟨.rparen, ")", line, col⟩])
      else if ch = '[' then lexGo fuel rest line (col + 1) (acc ++ [⟨.lbracket, "[", line, col⟩])
      else if ch = ']' then lexGo fuel rest line (col + 1) (acc ++ [⟨.rbracket, "]", line, col⟩])
      else if ch = lbraceChar then lexGo fuel rest line (col + 1) (acc ++ [⟨.lbrace, "\x7b", line, col⟩])
      else if ch = rbraceChar then lexGo fuel rest line (col + 1) (acc ++ [⟨.rbrace, "\x7d", line, col⟩])
      else if ch = '<' then lexGo fuel rest line (col + 1) (acc ++ [⟨.langle, "<", line, col⟩])
      else if ch = '>' then lexGo fuel rest line (col + 1) (acc ++ [⟨.rangle, ">", line, col⟩])
      else if ch = ':' then lexGo fuel rest line (col + 1) (acc ++ [⟨.colon, ":", line, col⟩])
      else if ch = ',' then lexGo fuel rest line (col + 1) (acc ++ [⟨.comma, ",", line, col⟩])
      else if ch = '?' then lexGo fuel rest line (col + 1) (acc ++ [⟨.question, "?", line, col⟩])
      else if ch.isAlpha ∨ ch = '_' ∨ ch.isDigit then
        let word := (ch :: rest).takeWhile identCont
        lexGo fuel ((ch :: rest).drop word.length) line (col + word.length)
          (acc ++ [⟨.ident, word.asString, line, col⟩])
      else
        .error ⟨"unexpected character: " ++ pyReprStr (String.singleton ch), line, col⟩

/-- `_lex`: tokenize a `.forma` source string. -/
def lex (source : String) : Except LexErr (List Token) :=
  lexGo (source.length + 1) source.toList 1 1 []

/-- Generic insertion-ordered dict assignment (Python `d[k] = v`). -/
def assocSet {α : Type} (m : List (String × α)) (k : String) (v : α) : List (String × α) :=
  if m.any (fun p => p.1 = k) then
    m.map (fun p => if p.1 = k then (p.1, v) else p)
  else m ++ [(k, v)]

/-- A parsed mixin body (`_parse_mixin_body`): optional type parameters and
the field map.  (The Python IR omits the `type_params` key when the list is
empty; the empty list plays that role here.) -/
structure PMixinBody where
  type_params : List String := []
  fields : List (String × String) := []
deriving DecidableEq, Repr

/-- A parsed type body (`_parse_type_body`): optional mixin `use` list and
the field map. -/
structure PTypeBody where
  use : List String := []
  fields : List (String × String) := []
deriving DecidableEq, Repr

/-- The parser's IR accumulators (`_Parser.__init__`).  `parse()` packages
the nonempty sections into a dict under the keys
`meta`/`types`/`unions`/`enums`/`type_aliases`/`mixins`. -/
structure IRAccum where
  meta : List (String × String) := []
  types : List (String × PTypeBody) := []
  unions : List (String × List (String × List (String × String))) := []
  enums : List (String × List String) := []
  type_aliases : List (String × String) := []
  mixins : List (String × PMixinBody) := []
deriving DecidableEq, Repr

/-- Parser state: current token index plus the IR accumulators. -/
structure PSt where
  pos : Nat := 0
  acc : IRAccum := {}
deriving DecidableEq, Repr

/-- `_peek` (the token list always ends with an EOF token, which the parser
never advances past). -/
def peekTok (toks : List Token) (st : PSt) : Token :=
  toks.getD st.pos ⟨.eof, "", 0, 0⟩

/-- `_advance`. -/
def advanceTok (toks : List Token) (st : PSt) : Token × PSt :=
  (peekTok toks st, { st with pos := st.pos + 1 })

/-- `_expect` with only a token type. -/
def expectT (toks : List Token) (st : PSt) (tt : TType) : Except ParseErr (Token × PSt) :=
  let tok := peekTok toks st
  if tok.ttype = tt then .ok (advanceTok toks st)
  else .error ⟨"expected " ++ tt.pyName ++ ", got " ++ tok.ttype.pyName ++ " " ++ pyReprStr tok.value, tok.line, tok.col⟩

/-- `_expect` with a token type and required value. -/
def expectTV (toks : List Token) (st : PSt) (tt : TType) (v : String) : Except ParseErr (Token × PSt) :=
  let tok := peekTok toks st
  if tok.ttype ≠ tt then
    .error ⟨"expected " ++ tt.pyName ++ " " ++ pyReprStr v ++ ", got " ++ tok.ttype.pyName ++ " " ++ pyReprStr tok.value, tok.line, tok.col⟩
  else if tok.value ≠ v then
    .error ⟨"expected " ++ pyReprStr v ++ ", got " ++ pyReprStr tok.value, tok.line, tok.col⟩
  else .ok (advanceTok toks st)

/-- `_match`: advance when the next token has the given type. -/
def matchT (toks : List Token) (st : PSt) (tt : TType) : Option (Token × PSt) :=
  let tok := peekTok toks st
  if tok.ttype = tt then some (advanceTok toks st) else none

mutual

/-- `_parse_type_expr` (recursive; fuel exceeds the expression depth). -/
def parseTypeExpr (fuel : Nat) (toks : List Token) (st : PSt) : Except ParseErr (String × PSt) :=
  match fuel with
  | 0 => .error ⟨"out of fuel", 0, 0⟩
  | fuel + 1 =>
    let tok := peekTok toks st
    if tok.ttype = .lbracket then do
      let (_, st) := advanceTok toks st
      let (args, st) ← parseTypeArgs fuel toks st
      let (_, st) ← expectT toks st .rbracket
      let base := "[" ++ String.intercalate ", " args ++ "]"
      match matchT toks st .question with
      | some (_, st) => .ok (base ++ "?", st)
      | none => .ok (base, st)
    else if tok.ttype = .lbrace then do
      let (_, st) := advanceTok toks st
      let (keyType, st) ← parseTypeExpr fuel toks st
      let (_, st) ← expectT toks st .comma
      let (valType, st) ← parseTypeExpr fuel toks st
      let (_, st) ← expectT toks st .rbrace
      let base := "\x7b" ++ keyType ++ ", " ++ valType ++ "\x7d"
      match matchT toks st .question with
      | some (_, st) => .ok (base ++ "?", st)
      | none => .ok (base, st)
    else do
      let (baseTok, st) ← expectT toks st .ident
      let (base, st) ←
        match matchT toks st .langle with
        | some (_, st) => do
          let (args, st) ← parseTypeArgs fuel toks st
          let (_, st) ← expectT toks st .rangle
          pure (baseTok.value ++ "<" ++ String.intercalate ", " args ++ ">", st)
        | none => pure (baseTok.value, st)
      match matchT toks st .question with
      | some (_, st) => .ok (base ++ "?", st)
      | none => .ok (base, st)

/-- One-or-more comma-separated type expressions (the shared
`[self._parse_type_expr()] … while self._match(TT.COMMA)` pattern). -/
def parseTypeArgs (fuel : Nat) (toks : List Token) (st : PSt) : Except ParseErr (List String × PSt) :=
  match fuel with
  | 0 => .error ⟨"out of fuel", 0, 0⟩
  | fuel + 1 => do
    let (first, st) ← parseTypeExpr fuel toks st
    match matchT toks st .comma with
    | some (_, st) => do
      let (rest, st) ← parseTypeArgs fuel toks st
      .ok (first :: rest, st)
    | none => .ok ([first], st)

end

/-- `_parse_type_params`: optional `<T, U, …>` declaration. -/
def parseTypeParams (fuel : Nat) (toks : List Token) (st : PSt) : Except ParseErr (List String × PSt) :=
  match matchT toks st .langle with
  | none => .ok ([], st)
  | some (_, st) => do
    let (first, st) ← expectT toks st .ident
    let rec go (fuel : Nat) (st : PSt) (acc : List String) : Except ParseErr (List String × PSt) :=
      match fuel with
      | 0 => .error ⟨"out of fuel", 0, 0⟩
      | fuel + 1 =>
        match matchT toks st .comma with
        | some (_, st) => do
          let (p, st) ← expectT toks st .ident
          go fuel st (acc ++ [p.value])
        | none => .ok (acc, st)
    let (params, st) ← go fuel st [first.value]
    let (_, st) ← expectT toks st .rangle
    .ok (params, st)

/-- `_parse_fields_until_rparen`: fields up to (but not consuming) `)`,
with the one-token pushback when an identifier is not followed by `:`. -/
def parseFieldsUntilRparen (fuel : Nat) (toks : List Token) (st : PSt) :
    Except ParseErr (List (String × String) × PSt) :=
  go fuel st []
where
  go (fuel : Nat) (st : PSt) (fields : List (String × String)) :
      Except ParseErr (List (String × String) × PSt) :=
    match fuel with
    | 0 => .error ⟨"out of fuel", 0, 0⟩
    | fuel + 1 =>
      if (peekTok toks st).ttype = .ident then
        let (nameTok, st') := advanceTok toks st
        if (peekTok toks st').ttype ≠ .colon then
          -- not a field: put the token back and stop
          .ok (fields, st)
        else do
          let (_, st') ← expectT toks st' .colon
          let (typeStr, st') ← parseTypeExpr (toks.length + 1) toks st'
          go fuel st' (assocSet fields nameTok.value typeStr)
      else .ok (fields, st)

/-- `_parse_mixin_ref` (parser side): `Name` or `Name<Type, …>`. -/
def parseMixinRefP (toks : List Token) (st : PSt) : Except ParseErr (String × PSt) := do
  let (nameTok, st) ← expectT toks st .ident
  match matchT toks st .langle with
  | some (_, st) => do
    let (args, st) ← parseTypeArgs (toks.length + 1) toks st
    let (_, st) ← expectT toks st .rangle
    .ok (nameTok.value ++ "<" ++ String.intercalate ", " args ++ ">", st)
  | none => .ok (nameTok.value, st)

/-- `_parse_model`. -/
def parseModel (toks : List Token) (st : PSt) : Except ParseErr PSt := do
  let (_, st) ← expectTV toks st .ident "model"
  let (nameTok, st) ← expectT toks st .ident
  let st := { st with acc.meta := dictSet st.acc.meta "name" nameTok.value }
  let (verTok, st) ← expectT toks st .ident
  let ver := if startsWithChar verTok.value 'v' then (verTok.value.toList.drop 1).asString else verTok.value
  let st := { st with acc.meta := dictSet st.acc.meta "version" ver }
  if (peekTok toks st).ttype = .strlit then
    let (descTok, st) := advanceTok toks st
    .ok { st with acc.meta := dictSet st.acc.meta "description" descTok.value }
  else .ok st

/-- `_parse_alias_body`. -/
def parseAliasBody (toks : List Token) (st : PSt) : Except ParseErr PSt := do
  let (nameTok, st) ← expectT toks st .ident
  let (targetTok, st) ← expectT toks st .ident
  .ok { st with acc.type_aliases := dictSet st.acc.type_aliases nameTok.value targetTok.value }

/-- `_parse_alias`. -/
def parseAlias (toks : List Token) (st : PSt) : Except ParseErr PSt := do
  let (_, st) ← expectTV toks st .ident "alias"
  parseAliasBody toks st

/-- `_parse_aliases`. -/
def parseAliases (fuel : Nat) (toks : List Token) (st : PSt) : Except ParseErr PSt := do
  let (_, st) ← expectTV toks st .ident "aliases"
  let rec go (fuel : Nat) (st : PSt) : Except ParseErr PSt :=
    match fuel with
    | 0 => .error ⟨"out of fuel", 0, 0⟩
    | fuel + 1 =>
      if (peekTok toks st).ttype = .ident then do
        let st ← parseAliasBody toks st
        go fuel st
      else .ok st
  go fuel st

/-- `_parse_mixin_body`: `Name [<T, U>] field …`. -/
def parseMixinBodyP (toks : List Token) (st : PSt) : Except ParseErr PSt := do
  let (nameTok, st) ← expectT toks st .ident
  let (typeParams, st) ← parseTypeParams (toks.length + 1) toks st
  let (fields, st) ← parseFieldsUntilRparen (toks.length + 1) toks st
  .ok { st with acc.mixins := assocSet st.acc.mixins nameTok.value ⟨typeParams, fields⟩ }

/-- `_parse_mixin`. -/
def parseMixin (toks : List Token) (st : PSt) : Except ParseErr PSt := do
  let (_, st) ← expectTV toks st .ident "mixin"
  parseMixinBodyP toks st

/-- `_parse_mixins`. -/
def parseMixins (fuel : Nat) (toks : List Token) (st : PSt) : Except ParseErr PSt := do
  let (_, st) ← expectTV toks st .ident "mixins"
  let rec go (fuel : Nat) (st : PSt) : Except ParseErr PSt :=
    match fuel with
    | 0 => .error ⟨"out of fuel", 0, 0⟩
    | fuel + 1 =>
      if (peekTok toks st).ttype = .lparen then do
        let (_, st) := advanceTok toks st
        let st ← parseMixinBodyP toks st
        let (_, st) ← expectT toks st .rparen
        go fuel st
      else .ok st
  go fuel st

/-- `_parse_enum_body`. -/
def parseEnumBody (fuel : Nat) (toks : List Token) (st : PSt) : Except ParseErr PSt := do
  let (nameTok, st) ← expectT toks st .ident
  let rec go (fuel : Nat) (st : PSt) (vals : List String) : Except ParseErr (List String × PSt) :=
    match fuel with
    | 0 => .error ⟨"out of fuel", 0, 0⟩
    | fuel + 1 =>
      if (peekTok toks st).ttype = .ident then
        let (v, st) := advanceTok toks st
        go fuel st (vals ++ [v.value])
      else .ok (vals, st)
  let (vals, st) ← go fuel st []
  .ok { st with acc.enums := assocSet st.acc.enums nameTok.value vals }

/-- `_parse_enum`. -/
def parseEnum (fuel : Nat) (toks : List Token) (st : PSt) : Except ParseErr PSt := do
  let (_, st) ← expectTV toks st .ident "enum"
  parseEnumBody fuel toks st

/-- `_parse_enums`. -/
def parseEnums (fuel : Nat) (toks : List Token) (st : PSt) : Except ParseErr PSt := do
  let (_, st) ← expectTV toks st .ident "enums"
  let rec go (fuel : Nat) (st : PSt) : Except ParseErr PSt :=
    match fuel with
    | 0 => .error ⟨"out of fuel", 0, 0⟩
    | fuel + 1 =>
      if (peekTok toks st).ttype = .lparen then do
        let (_, st) := advanceTok toks st
        let st ← parseEnumBody fuel toks st
        let (_, st) ← expectT toks st .rparen
        go fuel st
      else .ok st
  go fuel st

/-- `_parse_type_body`: `Name [MixinRef …] field …`. -/
def parseTypeBody (toks : List Token) (st : PSt) : Except ParseErr PSt := do
  let (nameTok, st) ← expectT toks st .ident
  let (useList, st) ←
    match matchT toks st .lbracket with
    | none => pure (([] : List String), st)
    | some (_, st) => do
      let rec go (fuel : Nat) (st : PSt) (acc : List String) : Except ParseErr (List String × PSt) :=
        match fuel with
        | 0 => .error ⟨"out of fuel", 0, 0⟩
        | fuel + 1 =>
          if (peekTok toks st).ttype = .ident then do
            let (ref, st) ← parseMixinRefP toks st
            go fuel st (acc ++ [ref])
          else .ok (acc, st)
      let (useList, st) ← go (toks.length + 1) st []
      let (_, st) ← expectT toks st .rbracket
      pure (useList, st)
  let (fields, st) ← parseFieldsUntilRparen (toks.length + 1) toks st
  .ok { st with acc.types := assocSet st.acc.types nameTok.value ⟨useList, fields⟩ }

/-- `_parse_type`. -/
def parseType (toks : List Token) (st : PSt) : Except ParseErr PSt := do
  let (_, st) ← expectTV toks st .ident "type"
  parseTypeBody toks st

/-- `_parse_types`. -/
def parseTypes (fuel : Nat) (toks : List Token) (st : PSt) : Except ParseErr PSt := do
  let (_, st) ← expectTV toks st .ident "types"
  let rec go (fuel : Nat) (st : PSt) : Except ParseErr PSt :=
    match fuel with
    | 0 => .error ⟨"out of fuel", 0, 0⟩
    | fuel + 1 =>
      if (peekTok toks st).ttype = .lparen then do
        let (_, st) := advanceTok toks st
        let st ← parseTypeBody toks st
        let (_, st) ← expectT toks st .rparen
        go fuel st
      else .ok st
  go fuel st

/-- `_parse_union_body`: `Name (common …) (Variant …) BareVariant …`. -/
def parseUnionBody (fuel : Nat) (toks : List Token) (st : PSt) : Except ParseErr PSt := do
  let (nameTok, st) ← expectT toks st .ident
  let rec go (fuel : Nat) (st : PSt) (body : List (String × List (String × String))) :
      Except ParseErr (List (String × List (String × String)) × PSt) :=
    match fuel with
    | 0 => .error ⟨"out of fuel", 0, 0⟩
    | fuel + 1 =>
      let tok := peekTok toks st
      if tok.ttype = .rparen ∨ tok.ttype = .eof then .ok (body, st)
      else if tok.ttype = .lparen then do
        let (_, st) := advanceTok toks st
        let (blockNameTok, st) ← expectT toks st .ident
        let (fields, st) ← parseFieldsUntilRparen (toks.length + 1) toks st
        let (_, st) ← expectT toks st .rparen
        go fuel st (assocSet body blockNameTok.value fields)
      else if tok.ttype = .ident then
        let (v, st) := advanceTok toks st
        go fuel st (assocSet body v.value [])
      else
        .error ⟨"expected variant name or \x27(\x27 in union, got " ++ tok.ttype.pyName ++ " " ++ pyReprStr tok.value, tok.line, tok.col⟩
  let (body, st) ← go fuel st []
  .ok { st with acc.unions := assocSet st.acc.unions nameTok.value body }

/-- `_parse_union`. -/
def parseUnion (fuel : Nat) (toks : List Token) (st : PSt) : Except ParseErr PSt := do
  let (_, st) ← expectTV toks st .ident "union"
  parseUnionBody fuel toks st

/-- `_parse_unions`. -/
def parseUnions (fuel : Nat) (toks : List Token) (st : PSt) : Except ParseErr PSt := do
  let (_, st) ← expectTV toks st .ident "unions"
  let rec go (fuel : Nat) (st : PSt) : Except ParseErr PSt :=
    match fuel with
    | 0 => .error ⟨"out of fuel", 0, 0⟩
    | fuel + 1 =>
      if (peekTok toks st).ttype = .lparen then do
        let (_, st) := advanceTok toks st
        let st ← parseUnionBody fuel toks st
        let (_, st) ← expectT toks st .rparen
        go fuel st
      else .ok st
  go fuel st

/-- `_parse_form`: dispatch a top-level `(keyword …)` form on the keyword
identifier immediately following the `(`. -/
def parseForm (fuel : Nat) (toks : List Token) (st : PSt) : Except ParseErr PSt := do
  let (_, st) ← expectT toks st .lparen
  let tok := peekTok toks st
  if tok.ttype ≠ .ident then
    .error ⟨"expected keyword after \x27(\x27, got " ++ tok.ttype.pyName ++ " " ++ pyReprStr tok.value, tok.line, tok.col⟩
  else do
    let keyword := tok.value
    let st ←
      if keyword = "model" then parseModel toks st
      else if keyword = "alias" then parseAlias toks st
      else if keyword = "aliases" then parseAliases fuel toks st
      else if keyword = "mixin" then parseMixin toks st
      else if keyword = "mixins" then parseMixins fuel toks st
      else if keyword = "enum" then parseEnum fuel toks st
      else if keyword = "enums" then parseEnums fuel toks st
      else if keyword = "type" then parseType toks st
      else if keyword = "types" then parseTypes fuel toks st
      else if keyword = "union" then parseUnion fuel toks st
      else if keyword = "unions" then parseUnions fuel toks st
      else .error ⟨"unexpected keyword " ++ pyReprStr keyword, tok.line, tok.col⟩
    let (_, st) ← expectT toks st .rparen
    .ok st

/-- `_Parser.parse`: the top-level loop. -/
def parseTop (fuel : Nat) (toks : List Token) (st : PSt) : Except ParseErr IRAccum :=
  match fuel with
  | 0 => .error ⟨"out of fuel", 0, 0⟩
  | fuel + 1 =>
    let tok := peekTok toks st
    if tok.ttype = .eof then .ok st.acc
    else if tok.ttype = .lparen then do
      let st ← parseForm (toks.length + 1) toks st
      parseTop fuel toks st
    else
      .error ⟨"expected \x27(\x27 to start a form, got " ++ tok.ttype.pyName ++ " " ++ pyReprStr tok.value, tok.line, tok.col⟩

/-- `parse_forma`: lex then parse, returning the IR accumulators or the
first lexing/parsing failure. -/
def parse_forma (source : String) : Except FormaErr IRAccum :=
  match lex source with
  | .error e => .error (.lexErr e)
  | .ok toks =>
    match parseTop (toks.length + 1) toks {} with
    | .error e => .error (.parseErr e)
    | .ok acc => .ok acc

/-! ## Concrete documents used to settle the claims -/

open Value in
/-- A complete `meta` section (name, version, description). -/
def metaTVD : String × Value :=
  ("meta", vdict [("name", vstr "T"), ("version", vstr "1.0"), ("description", vstr "d")])

open Value in
/-- Two mixins whose `use` lists reference each other (`A uses B`,
`B uses A`). -/
def docCycleAB : Doc :=
  [metaTVD,
   ("mixins", vdict [
     ("A", vdict [("use", vlist [vstr "B"]), ("fields", vdict [("x", vstr "int")])]),
     ("B", vdict [("use", vlist [vstr "A"]), ("fields", vdict [("y", vstr "string")])])])]

open Value in
/-- Mixin `C` composes `A` and `B`, which both declare a field `x`; shape
`S` uses only `C` (the collision is transitive inside `C`'s chain). -/
def docTransitiveCollision : Doc :=
  [metaTVD,
   ("mixins", vdict [
     ("A", vdict [("fields", vdict [("x", vstr "int")])]),
     ("B", vdict [("fields", vdict [("x", vstr "string")])]),
     ("C", vdict [("use", vlist [vstr "A", vstr "B"]), ("fields", vdict [("y", vstr "bool")])])]),
   ("shapes", vdict [("S", vdict [("use", vlist [vstr "C"]), ("fields", vdict [("z", vstr "bool")])])])]

open Value in
/-- Shape `S` directly composes the two colliding mixins `A` and `B`. -/
def docDirectCollision : Doc :=
  [metaTVD,
   ("mixins", vdict [
     ("A", vdict [("fields", vdict [("x", vstr "int")])]),
     ("B", vdict [("fields", vdict [("x", vstr "string")])])]),
   ("shapes", vdict [("S", vdict [("use", vlist [vstr "A", vstr "B"]), ("fields", vdict [("z", vstr "bool")])])])]

open Value in
/-- Generic mixin `V<T>` used as `[V<Bird>]` by shape `Bird`. -/
def docGenericMixin : Doc :=
  [metaTVD,
   ("mixins", vdict [
     ("V", vdict [("type_params", vlist [vstr "T"]),
                  ("fields", vdict [("current", vstr "T"), ("history", vstr "[T]")])])]),
   ("shapes", vdict [("Bird", vdict [("use", vlist [vstr "V<Bird>"]), ("fields", vdict [("name", vstr "string")])])])]

open Value in
/-- Non-generic mixin `M` used with no type arguments (arity case 1). -/
def docArityBothZero : Doc :=
  [metaTVD,
   ("mixins", vdict [("M", vdict [("fields", vdict [("x", vstr "int")])])]),
   ("shapes", vdict [("Foo", vdict [("use", vlist [vstr "M"]), ("fields", vdict [("y", vstr "string")])])])]

open Value in
/-- Generic mixin `V<T>` used with zero type arguments (arity case 2). -/
def docArityGenericZero : Doc :=
  [metaTVD,
   ("mixins", vdict [("V", vdict [("type_params", vlist [vstr "T"]), ("fields", vdict [("c", vstr "T")])])]),
   ("shapes", vdict [("Foo", vdict [("use", vlist [vstr "V"]), ("fields", vdict [("x", vstr "int")])])])]

open Value in
/-- Non-generic mixin `M` used as `M<Bird>` (arity case 3). -/
def docArityNotGeneric : Doc :=
  [metaTVD,
   ("mixins", vdict [("M", vdict [("fields", vdict [("x", vstr "int")])])]),
   ("shapes", vdict [("Foo", vdict [("use", vlist [vstr "M<Bird>"]), ("fields", vdict [("y", vstr "string")])])])]

open Value in
/-- Two-parameter mixin `P<A, B>` used as `P<X>` (arity case 4). -/
def docArityMismatch : Doc :=
  [metaTVD,
   ("mixins", vdict [("P", vdict [("type_params", vlist [vstr "A", vstr "B"]), ("fields", vdict [("f", vstr "A")])])]),
   ("shapes", vdict [("Foo", vdict [("use", vlist [vstr "P<X>"]), ("fields", vdict [("y", vstr "string")])])])]

open Value in
/-- A choice with a single bare variant. -/
def docChoiceOneVariant : Doc :=
  [metaTVD, ("choices", vdict [("Color", vdict [("red", vdict [])])])]

open Value in
/-- A choice with three bare variants and no `common` block. -/
def docChoiceThreeVariants : Doc :=
  [metaTVD, ("choices", vdict [("Color", vdict [("red", vdict []), ("green", vdict []), ("blue", vdict [])])])]

open Value in
/-- A choice whose `common` block would be its second entry: only one real
variant remains once `common` is excluded. -/
def docChoiceCommonOneVariant : Doc :=
  [metaTVD,
   ("choices", vdict [("P", vdict [("common", vdict [("amount", vstr "float")]),
                                   ("Card", vdict [("number", vstr "string")])])])]

open Value in
/-- A choice with a `common` block and two variants. -/
def docChoiceCommonTwoVariants : Doc :=
  [metaTVD,
   ("choices", vdict [("P", vdict [("common", vdict [("amount", vstr "float")]),
                                   ("Card", vdict [("number", vstr "string")]),
                                   ("Cash", vdict [])])])]

open Value in
/-- Shape `Foo` whose `use` key holds the (non-list) value `v`; its own
fields include `y: M`, which names a declared mixin. -/
def docShapeUseNonList (v : Value) : Doc :=
  [metaTVD,
   ("mixins", vdict [("M", vdict [("fields", vdict [("z", vstr "int")])])]),
   ("shapes", vdict [("Foo", vdict [("use", v), ("fields", vdict [("x", vstr "int"), ("y", vstr "M")])])])]

open Value in
/-- Mixin `N` whose `use` key holds the (non-list) value `v`. -/
def docMixinUseNonList (v : Value) : Doc :=
  [metaTVD,
   ("mixins", vdict [("N", vdict [("use", v), ("fields", vdict [("z", vstr "int")])])])]

/-! ## Theorems settling the claims -/

/-- **C1.** The claim says the top-level dispatch recognizes exactly
`namespace`, `model`, `mixin`, `mixins`, `choice`, `choices`, `shape`,
`shapes`.  The parser in `forma_parser.py` instead rejects `shape`,
`choice` and `namespace` as unexpected keywords (contradicting the
repository's own tests, which parse all three) and accepts `alias`, a
keyword outside the claimed set. -/
theorem C1_top_level_keyword_dispatch :
    parse_forma "(shape Foo x: int)" =
      .error (.parseErr ⟨"unexpected keyword \x27shape\x27", 1, 2⟩) ∧
    parse_forma "(choice Color red green blue)" =
      .error (.parseErr ⟨"unexpected keyword \x27choice\x27", 1, 2⟩) ∧
    parse_forma "(namespace a.b)" =
      .error (.parseErr ⟨"unexpected keyword \x27namespace\x27", 1, 2⟩) ∧
    parse_forma "(alias A B)" =
      .ok { type_aliases := [("A", "B")] } :=
  ⟨rfl, rfl, rfl, rfl⟩

/-- **C2.** The claim says block comments `/* … */` are nestable and
discarded, with an unterminated one failing at the opening `/*`.  The
lexer in `forma_parser.py` supports only `//` line comments: any `/*`
(nested, terminated or not) fails immediately with
`LexError: unexpected character: '/'`, so the nested example does not lex
as empty input (contradicting the repository's own tests, which expect it
to parse to an empty IR). -/
theorem C2_block_comments_unsupported :
    parse_forma "/* a /* b */ c */" =
      .error (.lexErr ⟨"unexpected character: \x27/\x27", 1, 1⟩) ∧
    lex "/* unterminated" = .error ⟨"unexpected character: \x27/\x27", 1, 1⟩ ∧
    parse_forma "// a line comment\n" = .ok {} :=
  ⟨rfl, rfl, rfl⟩

/-- **C3.** The claim says the singular `mixin` form accepts an optional
bracketed composed-mixin list recorded as the mixin's `use` entry.  The
parser's `_parse_mixin_body` parses only a name, optional type parameters
and fields, so `(mixin B [A] y: string)` fails with a `ParseError` at the
`[` (contradicting the repository's own tests, which expect
`use = ["A"]`); a mixin without a bracket list still parses. -/
theorem C3_mixin_use_list_unsupported :
    parse_forma "(mixin B [A] y: string)" =
      .error (.parseErr ⟨"expected ), got [ \x27[\x27", 1, 10⟩) ∧
    parse_forma "(mixin M x: int)" =
      .ok { mixins := [("M", { fields := [("x", "int")] })] } :=
  ⟨rfl, rfl⟩

/-- **C4 counterexample.** On the two-mixin cycle `A uses B`, `B uses A`,
validation does *not* produce exactly one E091 diagnostic: the cycle
traversal is run once from each declared mixin, so two E091 diagnostics
are emitted. -/
theorem C4_cycle_counterexample :
    countCode "E091" (validate docCycleAB).1 = 2 ∧
    ¬ countCode "E091" (validate docCycleAB).1 = 1 := by
  constructor
  · rfl
  · intro h
    simpa using h.symm.trans (by rfl : countCode "E091" (validate docCycleAB).1 = 2)

/-- **C4 amended.** On the two-mixin cycle the validator emits exactly two
E091 diagnostics, one per declared mixin: the one reported for `A` names
the full cycle path `A -> B -> A` (at `mixins.A`), and the one for `B`
names `B -> A -> B`; no other diagnostics are produced. -/
theorem C4_cycle_two_diagnostics :
    validate docCycleAB =
      ([⟨"E091", "error", "circular mixin composition: A -> B -> A", "mixins.A"⟩,
        ⟨"E091", "error", "circular mixin composition: B -> A -> B", "mixins.B"⟩], []) :=
  rfl

/-- **C5.** A field-name collision arising transitively inside one
composed mixin's own `use` chain is resolved silently: mixin `C`'s
effective fields expand its `use` list in declaration order with later
entries overriding earlier ones (`x` resolves to `B`'s `string`), then
`C`'s own fields apply on top, and the document validates with no
diagnostics at all; whereas the same two mixins listed directly in one
shape's `use` list produce exactly one E090 error. -/
theorem C5_transitive_override_vs_E090 :
    validate docTransitiveCollision = ([], []) ∧
    resolveMixinFields (mixinFuel (buildTypeRegistry docTransitiveCollision))
        (buildTypeRegistry docTransitiveCollision) "C" [] [] =
      [("x", Value.vstr "string"), ("y", Value.vstr "bool")] ∧
    (validate docDirectCollision).1 =
      [⟨"E090", "error", "field \"x\" is defined in both mixin \"A\" and mixin \"B\"", "shapes.S.use"⟩] ∧
    countCode "E090" (validate docDirectCollision).1 = 1 :=
  ⟨rfl, rfl, rfl, rfl⟩

/-- **C6.** A generic mixin's declared type parameters are substituted
positionally everywhere they occur in its declared field types: `V<T>`
with fields `current: T`, `history: [T]` used as `[V<Bird>]` contributes
`current: Bird` and `history: [Bird]`, and the model validates with zero
errors (and zero warnings).  The substitution rewrites parameters bare,
inside collections, associations and named generics, preserving a trailing
`?`; missing arguments leave occurrences unsubstituted and extra arguments
are ignored. -/
theorem C6_generic_substitution :
    validate docGenericMixin = ([], []) ∧
    resolveMixinFields (mixinFuel (buildTypeRegistry docGenericMixin))
        (buildTypeRegistry docGenericMixin) "V" ["Bird"] [] =
      [("current", Value.vstr "Bird"), ("history", Value.vstr "[Bird]")] ∧
    substituteTypeParams (typeFuel "T?") "T?" [("T", "Bird")] = "Bird?" ∧
    substituteTypeParams (typeFuel "[T]?") "[T]?" [("T", "Bird")] = "[Bird]?" ∧
    substituteTypeParams (typeFuel "\x7bT, int\x7d") "\x7bT, int\x7d" [("T", "Bird")] = "\x7bBird, int\x7d" ∧
    substituteTypeParams (typeFuel "tree<T>") "tree<T>" [("T", "Bird")] = "tree<Bird>" ∧
    substituteTypeParams (typeFuel "[[T], U]") "[[T], U]" [("T", "A"), ("U", "B")] = "[[A], B]" ∧
    resolveMixinFields (mixinFuel (buildTypeRegistry docGenericMixin))
        (buildTypeRegistry docGenericMixin) "V" [] [] =
      [("current", Value.vstr "T"), ("history", Value.vstr "[T]")] ∧
    resolveMixinFields (mixinFuel (buildTypeRegistry docGenericMixin))
        (buildTypeRegistry docGenericMixin) "V" ["Bird", "Extra"] [] =
      [("current", Value.vstr "Bird"), ("history", Value.vstr "[Bird]")] :=
  ⟨rfl, rfl, rfl, rfl, rfl, rfl, rfl, rfl, rfl⟩

/-- Characters of `rstripQ s` are characters of `s`. -/
theorem mem_toList_rstripQ {c : Char} {s : String} (h : c ∈ (rstripQ s).toList) :
    c ∈ s.toList := by
  have heq : (rstripQ s).toList = (s.toList.reverse.dropWhile (· = '?')).reverse := rfl
  rw [heq] at h
  have h2 : c ∈ s.toList.reverse.dropWhile (· = '?') := List.mem_reverse.mp h
  have h3 := (List.dropWhile_sublist _).subset h2
  exact List.mem_reverse.mp h3

/-- A string containing no `<` cannot match `_WRAPPER_RE`. -/
theorem wrapperMatch_eq_none {s : String} (h : '<' ∉ s.toList) :
    wrapperMatch s = none := by
  cases hrest : s.toList.dropWhile isWordChar with
  | nil => simp only [wrapperMatch, hrest]
  | cons a rest2 =>
    have ha : a ∈ s.toList := by
      have hmem : a ∈ s.toList.dropWhile isWordChar := by
        rw [hrest]; exact List.mem_cons_self a rest2
      exact (List.dropWhile_sublist _).subset hmem
    have hneg : ¬ (a = '<' ∧ List.takeWhile isWordChar s.toList ≠ [] ∧
        rest2.getLast? = some '>' ∧ rest2.dropLast ≠ []) := by
      rintro ⟨rfl, -⟩
      exact h ha
    simp only [wrapperMatch, hrest]
    rw [if_neg hneg]

/-- A string whose characters avoid `c` does not start with `c`. -/
theorem startsWithChar_eq_false {s : String} {c : Char} (h : c ∉ s.toList) :
    startsWithChar s c = false := by
  cases hs : s.toList with
  | nil => simp only [startsWithChar, hs]
  | cons a t =>
    have hac : a ≠ c := by
      intro hac
      exact h (hs ▸ hac ▸ List.mem_cons_self a t)
    have hs' : s.data = a :: t := hs
    simp [startsWithChar, hs', hac]

/-- **C7.** The arity check on a shape's `use` entry distinguishes four
cases on (declared parameter count `e`, supplied argument count `a`): both
zero and matching non-zero counts are accepted; a generic mixin given zero
arguments, a non-generic mixin given arguments, and non-matching non-zero
counts each yield exactly one E086, with case-specific messages.  The
four concrete documents drive each case through the full validator, and
the three error messages are pairwise distinct. -/
theorem C7_arity_four_cases :
    (∀ (n loc : String) (e a : Nat),
      arityCheckErrors n loc e a =
        if e = 0 ∧ a = 0 then []
        else if e > 0 ∧ a = 0 then
          [errD "E086" ("mixin \"" ++ n ++ "\" requires " ++ toString e ++ " type argument(s), got 0") loc]
        else if e = 0 ∧ a > 0 then
          [errD "E086" ("mixin \"" ++ n ++ "\" is not generic but got " ++ toString a ++ " type argument(s)") loc]
        else if e = a then []
        else
          [errD "E086" ("mixin \"" ++ n ++ "\" requires " ++ toString e ++ " type argument(s), got " ++ toString a) loc]) ∧
    validate docArityBothZero = ([], []) ∧
    (validate docArityGenericZero).1 =
      [⟨"E086", "error", "mixin \"V\" requires 1 type argument(s), got 0", "shapes.Foo.use"⟩] ∧
    (validate docArityNotGeneric).1 =
      [⟨"E086", "error", "mixin \"M\" is not generic but got 1 type argument(s)", "shapes.Foo.use"⟩] ∧
    (validate docArityMismatch).1 =
      [⟨"E086", "error", "mixin \"P\" requires 2 type argument(s), got 1", "shapes.Foo.use"⟩] := by
  refine ⟨?_, rfl, rfl, rfl, rfl⟩
  intro n loc e a
  unfold arityCheckErrors
  rcases Nat.eq_zero_or_pos e with he | he <;> rcases Nat.eq_zero_or_pos a with ha | ha
  · simp [he, ha]
  · simp [he, Nat.pos_iff_ne_zero.mp ha, Nat.ne_of_gt ha, ha]
  · simp [ha, Nat.pos_iff_ne_zero.mp he, (Nat.ne_of_gt he).symm, he]
  · by_cases hea : e = a
    · simp [hea, Nat.pos_iff_ne_zero.mp ha]
    · simp [hea, Ne.symm hea, Nat.pos_iff_ne_zero.mp he, Nat.pos_iff_ne_zero.mp ha, he, ha]

/-- `countCode` distributes over append. -/
theorem countCode_append (c : String) (l1 l2 : List Diagnostic) :
    countCode c (l1 ++ l2) = countCode c l1 + countCode c l2 := by
  simp [countCode, List.filter_append]

/-- A `flatMap` of code-free diagnostic lists is code-free. -/
theorem countCode_flatMap_zero {α : Type} {c : String} {f : α → List Diagnostic}
    {l : List α} (h : ∀ x ∈ l, countCode c (f x) = 0) :
    countCode c (l.flatMap f) = 0 := by
  induction l with
  | nil => rfl
  | cons x xs ih =>
    have hx := h x (List.mem_cons_self x xs)
    have hxs := ih (fun y hy => h y (List.mem_cons_of_mem x hy))
    have : (x :: xs).flatMap f = f x ++ xs.flatMap f := rfl
    rw [this, countCode_append, hx, hxs]

/-- `_resolve_type` never emits an E050 diagnostic (E050 belongs to the
choice-variant count check alone). -/
theorem resolveType_count_E050 (fuel : Nat) :
    ∀ (reg : Registry) (raw loc : String),
      countCode "E050" (resolveType fuel reg raw loc).1 = 0 := by
  induction fuel with
  | zero => intro reg raw loc; rfl
  | succ n ih =>
    intro reg raw loc
    rw [resolveType]
    split
    · rfl
    · split
      · refine countCode_flatMap_zero (fun a ha => ?_)
        simp only [countCode_append, ih, Nat.add_zero]
        split <;> rfl
      · split
        · simp only []
          split
          · rfl
          · exact countCode_flatMap_zero (fun a ha => ih reg (pyStrip a) loc)
        · split
          · rename_i wname argsStr heq
            rw [countCode_append]
            have h1 : countCode "E050" [warnD "W015" ("named wrapper \"" ++ wname ++ "\"") loc] = 0 := rfl
            rw [h1, Nat.zero_add]
            refine countCode_flatMap_zero (fun a ha => ?_)
            simp only [countCode_append, ih, Nat.add_zero]
            split <;> rfl
          · split
            · rfl
            · split
              · rfl
              · rfl

/-- **C8.** When the type resolver reaches a bare name — an expression
containing neither brackets, braces nor angle brackets (and nonempty after
stripping trailing `?`) — it accepts any known shape or choice name with
no diagnostic, emits exactly one E042 error if the name is a declared
mixin, and accepts every other identifier as an atom with no diagnostic at
all. -/
theorem C8_bare_name_resolution (fuel : Nat) (reg : Registry) (raw loc : String)
    (hne : rstripQ raw ≠ "")
    (hchars : ∀ c ∈ raw.toList,
      c ≠ '[' ∧ c ≠ ']' ∧ c ≠ lbraceChar ∧ c ≠ rbraceChar ∧ c ≠ '<' ∧ c ≠ '>') :
    resolveType (fuel + 1) reg raw loc =
      if rstripQ raw ∈ reg.shapes ∨ rstripQ raw ∈ reg.choices then ([], true)
      else if rstripQ raw ∈ reg.mixins then
        ([errD "E042" ("mixin \"" ++ rstripQ raw ++ "\" cannot be used as a field type (use a shape instead)") loc], false)
      else ([], true) := by
  have hsub : ∀ c ∈ (rstripQ raw).toList, c ∈ raw.toList := fun c hc => mem_toList_rstripQ hc
  have hlb : startsWithChar (rstripQ raw) '[' = false :=
    startsWithChar_eq_false (fun hm => (hchars _ (hsub _ hm)).1 rfl)
  have hbr : startsWithChar (rstripQ raw) lbraceChar = false :=
    startsWithChar_eq_false (fun hm => (hchars _ (hsub _ hm)).2.2.1 rfl)
  have hwm : wrapperMatch (rstripQ raw) = none :=
    wrapperMatch_eq_none (fun hm => (hchars _ (hsub _ hm)).2.2.2.2.1 rfl)
  simp [resolveType, hne, hlb, hbr, hwm]

/-- Witness for **C8**: a concrete registry declaring shape `S`, choice
`C` and mixin `M`; the bare names `M` (a mixin: one E042), `S` (a shape:
accepted) and `Atom` (unknown: accepted as an atom) behave as the theorem
states. -/
theorem C8_bare_name_resolution_witness :
    resolveType 1 { shapes := ["S"], choices := ["C"], mixins := ["M"] } "M" "shapes.Foo.fields.y" =
      ([errD "E042" "mixin \"M\" cannot be used as a field type (use a shape instead)" "shapes.Foo.fields.y"], false) ∧
    resolveType 1 { shapes := ["S"], choices := ["C"], mixins := ["M"] } "S" "l" = ([], true) ∧
    resolveType 1 { shapes := ["S"], choices := ["C"], mixins := ["M"] } "Atom" "l" = ([], true) := by
  refine ⟨?_, ?_, ?_⟩
  · rw [C8_bare_name_resolution 0 _ "M" _ (by decide) (by decide)]
    decide
  · rw [C8_bare_name_resolution 0 _ "S" _ (by decide) (by decide)]
    decide
  · rw [C8_bare_name_resolution 0 _ "Atom" _ (by decide) (by decide)]
    decide

/-- **C9.** For every choice body, validation counts the variants
excluding the reserved `common` key and emits exactly one E050 when that
count is below two (and none otherwise), whatever the rest of the body or
the registry contains; concretely, a single-variant choice yields that one
E050, a choice of three bare variants and no `common` block validates
with zero errors and warnings, and a `common` block does not count as a
variant. -/
theorem C9_choice_variant_count :
    (∀ (reg : Registry) (name : String) (xs : List (String × Value)),
      countCode "E050" (validateChoiceBody reg name xs) =
        if (xs.filter (fun p => p.1 ≠ "common")).length < 2 then 1 else 0) ∧
    (validate docChoiceOneVariant).1 =
      [⟨"E050", "error", "choice \"Color\" must have at least 2 variants (has 1)", "choices.Color"⟩] ∧
    validate docChoiceThreeVariants = ([], []) ∧
    (validate docChoiceCommonOneVariant).1 =
      [⟨"E050", "error", "choice \"P\" must have at least 2 variants (has 1)", "choices.P"⟩] ∧
    validate docChoiceCommonTwoVariants = ([], []) := by
  refine ⟨?_, rfl, rfl, rfl, rfl⟩
  intro reg name xs
  have hfields : ∀ (cs : List (String × Value)) (locOf : String → String),
      countCode "E050" (cs.flatMap (fun p =>
        match p.2 with
        | Value.vstr s => (resolveType (typeFuel s) reg s (locOf p.1)).1
        | _ => [])) = 0 := by
    intro cs locOf
    refine countCode_flatMap_zero (fun p hp => ?_)
    rcases p with ⟨k, v⟩
    cases v <;> first
      | rfl
      | exact resolveType_count_E050 _ reg _ _
  have hvariants : countCode "E050"
      ((xs.filter (fun p => p.1 ≠ "common")).flatMap (fun v =>
        match v.2 with
        | Value.vnone => []
        | Value.vdict vfs =>
          vfs.flatMap (fun p =>
            match p.2 with
            | Value.vstr s => (resolveType (typeFuel s) reg s ("choices." ++ name ++ "." ++ v.1 ++ "." ++ p.1)).1
            | _ => [])
        | _ => [errD "E051" ("variant \"" ++ v.1 ++ "\" in choice \"" ++ name ++ "\" must be a mapping or empty") ("choices." ++ name ++ "." ++ v.1)])) = 0 := by
    refine countCode_flatMap_zero (fun v hv => ?_)
    rcases v with ⟨vn, vv⟩
    cases vv <;> first
      | rfl
      | exact hfields _ _
  cases hc : pyGet xs "common" <;>
    simp only [validateChoiceBody, hc, countCode_append, hfields, hvariants] <;>
    split <;>
    simp [countCode, errD]

set_option maxHeartbeats 3000000

/-- **C10.** If a shape's `use` key holds any non-list (and non-`None`)
value, the validator emits E083 (whereas the analogous case on a mixin
emits E092), performs no mixin reference/arity/composition processing for
that shape (no E084/E086/E090 — the error lists below are exhaustive), and
still validates the shape's own declared fields (the field `y: M` naming a
mixin still draws its E042). -/
theorem C10_shape_use_not_list (v : Value)
    (hl : v.isList = false) (hn : v.isNone = false) :
    validate (docShapeUseNonList v) =
      ([⟨"E083", "error", "\"use\" in shape \"Foo\" must be a list", "shapes.Foo.use"⟩,
        ⟨"E042", "error", "mixin \"M\" cannot be used as a field type (use a shape instead)", "shapes.Foo.fields.y"⟩],
       []) ∧
    validate (docMixinUseNonList v) =
      ([⟨"E092", "error", "\"use\" in mixin \"N\" must be a list", "mixins.N.use"⟩], []) := by
  cases v with
  | vlist xs => simp [Value.isList] at hl
  | vnone => simp [Value.isNone] at hn
  | vstr s => exact ⟨rfl, rfl⟩
  | vbool b => exact ⟨rfl, rfl⟩
  | vint n => exact ⟨rfl, rfl⟩
  | vdict xs => exact ⟨rfl, rfl⟩

/-- Witness for **C10**: the non-list value `True` in the `use` slot. -/
theorem C10_shape_use_not_list_witness :
    validate (docShapeUseNonList (Value.vbool true)) =
      ([⟨"E083", "error", "\"use\" in shape \"Foo\" must be a list", "shapes.Foo.use"⟩,
        ⟨"E042", "error", "mixin \"M\" cannot be used as a field type (use a shape instead)", "shapes.Foo.fields.y"⟩],
       []) ∧
    validate (docMixinUseNonList (Value.vbool true)) =
      ([⟨"E092", "error", "\"use\" in mixin \"N\" must be a list", "mixins.N.use"⟩], []) :=
  C10_shape_use_not_list (Value.vbool true) rfl rfl

end Forma
